import Mathlib

/-
Verification of `scripts/codex_notify_slack.py`: a notifier that posts
agent-turn-complete events to Slack (Web API with threading, webhook, or
local desktop notification) and persists a session → thread mapping in
`~/.codex/slack_threads.json`.

The Python code is shallowly embedded: JSON values are an inductive type,
the thread-store file is an explicit `FileState`, network calls are
oracles (`Except PyExc String` outcomes supplied as parameters), and
`main` is a pure function from inputs and oracles to an exit code, a
final file state and a trace of effect events.
-/

set_option linter.unusedVariables false

namespace CodexNotify

/-- JSON values as produced by Python's `json.loads`: null, booleans,
integers (no float payloads occur in this program's data), strings,
arrays, and objects.  Objects are association lists with string keys;
`json.loads` always yields objects with unique string keys, which is the
domain this embedding is used on. -/
inductive Json where
  | null : Json
  | bool (b : Bool) : Json
  | num (n : Int) : Json
  | str (s : String) : Json
  | arr (xs : List Json) : Json
  | obj (kvs : List (String × Json)) : Json

/-- `d.get(k)` on a Python dict parsed from JSON: first binding of `k`. -/
def dictGet (kvs : List (String × Json)) (k : String) : Option Json :=
  List.lookup k kvs

/-- Python `isinstance(x, int)` on a JSON-decoded value: ints and bools
count (Python `bool` is a subclass of `int`, `True == 1`, `False == 0`). -/
def jsonAsPyInt : Json → Option Int
  | .num n => some n
  | .bool b => some (if b then 1 else 0)
  | _ => none

/-- Python whitespace stripped by `str.strip()` (ASCII subset). -/
def pyIsSpace (c : Char) : Bool :=
  c = ' ' ∨ c = '\t' ∨ c = '\n' ∨ c = '\r' ∨ c = '\x0b' ∨ c = '\x0c'

/-- `str.strip()`: drop whitespace from both ends. -/
def pyStrip (s : String) : String :=
  String.mk (((s.data.dropWhile pyIsSpace).reverse.dropWhile pyIsSpace).reverse)

/-- `_truncate(text, limit)` (lines 22-25): texts are modelled as lists of
characters (Python `len`/slicing count code points, as does `List Char`).
`text[: max(0, limit - 1)] + "…"`. -/
def truncate (text : List Char) (limit : Nat) : List Char :=
  if text.length ≤ limit then text
  else text.take (max 0 (limit - 1)) ++ ['…']

/-- `_session_key(session_id)` (lines 112-117): `f"sid:{session_id}"` when
the id is non-empty (Python truthiness of `str`), else
`f"ppid:{os.getppid()}"`. -/
def sessionKey (sessionId : String) (ppid : Nat) : String :=
  if sessionId ≠ "" then "sid:" ++ sessionId
  else "ppid:" ++ toString ppid

/-- `_prune_threads(threads, max_age_s=7*24*3600)` (lines 208-220), on a
JSON-decoded dict: keys are strings by construction, so the
`isinstance(sid, str)` guard reduces to the non-emptiness test; an entry
is skipped when its value is not a dict, or when its `updated_at` is an
int (or bool, per `isinstance`) with `now - updated_at > 604800`.
Python's dict preserves insertion order and call sites pass dicts with
unique keys, so `pruned[sid] = entry` is an append. -/
def pruneThreads (now : Int) : List (String × Json) → List (String × Json)
  | [] => []
  | (sid, entry) :: rest =>
    if sid = "" then pruneThreads now rest
    else
      match entry with
      | Json.obj e =>
        match jsonAsPyInt ((List.lookup "updated_at" e).getD Json.null) with
        | some u =>
          if now - u > 604800 then pruneThreads now rest
          else (sid, Json.obj e) :: pruneThreads now rest
        | none => (sid, Json.obj e) :: pruneThreads now rest
      | _ => pruneThreads now rest

/-- Key order of Python dict/JSON object pairs, for
`json.dumps(..., sort_keys=True)`. -/
def keyLE (a b : String × Json) : Prop := a.1 ≤ b.1

instance : DecidableRel keyLE := fun a b => inferInstanceAs (Decidable (a.1 ≤ b.1))

/-- Sort object pairs by key, as `json.dumps(..., sort_keys=True)` emits
them. -/
def sortPairs (l : List (String × Json)) : List (String × Json) :=
  List.insertionSort keyLE l

/-- `json.loads(json.dumps(j, sort_keys=True))`: serialisation followed by
parsing returns the same value with every object's pairs reordered by key
(recursively).  `ensure_ascii=False` and `indent=2` only affect the byte
form, not the parsed value. -/
def sortKeysJson : Json → Json
  | .null => .null
  | .bool b => .bool b
  | .num n => .num n
  | .str s => .str s
  | .arr xs => .arr (xs.attach.map fun x => sortKeysJson x.1)
  | .obj kvs => .obj (sortPairs (kvs.attach.map fun p => (p.1.1, sortKeysJson p.1.2)))
decreasing_by
  · simp_wf
    have := List.sizeOf_lt_of_mem x.2
    omega
  · simp_wf
    have h1 := List.sizeOf_lt_of_mem p.2
    have h2 : sizeOf p.1.2 < sizeOf p.1 := by
      obtain ⟨k, v⟩ := p.1
      simp
    omega

/-- State of the thread-store file `~/.codex/slack_threads.json`: missing,
present but not valid JSON, or present with parsed content `j`. -/
inductive FileState where
  | absent : FileState
  | corrupt : FileState
  | present (j : Json) : FileState

/-- `_load_threads()` (lines 176-183): `{}` when the file does not exist or
`json.loads` raises; otherwise the parsed content.  Total: every exception
is caught inside. -/
def loadThreads : FileState → Json
  | .absent => .obj []
  | .corrupt => .obj []
  | .present j => j

/-- `_save_threads(data)` (lines 186-191): writes
`json.dumps(data, ensure_ascii=False, indent=2, sort_keys=True)` to a temp
file and atomically renames it over the store, so afterwards the file
exists and holds the table with keys sorted recursively. -/
def saveThreads (tbl : List (String × Json)) : FileState :=
  .present (sortKeysJson (.obj tbl))

/-- Python `repr` of a JSON-decoded value (as embedded in `str` of a
container): `None`/`True`/`False`, decimal ints, single-quoted strings
(quote escaping in string payloads is not modelled; no claim depends on
it), `[x, y]` lists and `{'k': v}` dicts. -/
def pyRepr : Json → String
  | .null => "None"
  | .bool true => "True"
  | .bool false => "False"
  | .num n => toString n
  | .str s => "'" ++ s ++ "'"
  | .arr xs =>
    "[" ++ String.intercalate ", " (xs.attach.map fun x => pyRepr x.1) ++ "]"
  | .obj kvs =>
    "\x7b" ++
      String.intercalate ", "
        (kvs.attach.map fun p => "'" ++ p.1.1 ++ "': " ++ pyRepr p.1.2) ++
      "\x7d"
decreasing_by
  · simp_wf
    have := List.sizeOf_lt_of_mem x.2
    omega
  · simp_wf
    have h1 := List.sizeOf_lt_of_mem p.2
    have h2 : sizeOf p.1.2 < sizeOf p.1 := by
      obtain ⟨k, v⟩ := p.1
      simp
    omega

/-- Python `str` of a JSON-decoded value: a string is itself, anything
else is its `repr`. -/
def pyStr : Json → String
  | .str s => s
  | j => pyRepr j

/-- The environment variables the script reads (absent = `""` for the
`os.environ.get(k, "")` reads; the session fallbacks use `os.environ.get(k)`
and skip falsy values, so `""` likewise means absent-or-empty). -/
structure Env where
  slackBotToken : String
  slackChannel : String
  slackWebhookUrl : String
  codexNotifyDebugPath : String
  codexSessionIdVar : String
  codexSessionVar : String
  codexSessionidVar : String

/-- `for c in candidates: s = str(c).strip() if c is not None else ""; if s: return s`
(lines 105-109). -/
def firstNonemptyCandidate : List Json → String
  | [] => ""
  | c :: rest =>
    let s := match c with
      | Json.null => ""
      | c => pyStrip (pyStr c)
    if s ≠ "" then s else firstNonemptyCandidate rest

/-- `_extract_session_id(notification)` (lines 85-109): gather candidates
from the record's session-id spellings, then the `session` field (string,
or dict probed for id spellings), then the `CODEX_SESSION*` environment
variables (skipping falsy values); return the first candidate whose
`str(...).strip()` is non-empty, else `""`. -/
def extractSessionId (n : List (String × Json)) (env : Env) : String :=
  let keyCands :=
    ["session-id", "session_id", "sessionId", "sessionID", "session id",
     "codex_session_id", "codexSessionId"].filterMap (fun k => dictGet n k)
  let sessCands : List Json :=
    match dictGet n "session" with
    | some (Json.str s) => [Json.str s]
    | some (Json.obj sd) =>
      ["id", "session-id", "session_id", "sessionId"].filterMap
        (fun k => dictGet sd k)
    | _ => []
  let envCands : List Json :=
    ([env.codexSessionIdVar, env.codexSessionVar, env.codexSessionidVar].filter
      (fun v => v ≠ "")).map Json.str
  firstNonemptyCandidate (keyCands ++ sessCands ++ envCands)

/-- Python exceptions distinguished by the script's handlers: `RuntimeError`
(the only class `_send_slack_api`'s reply fallback inspects), the
`urllib.error` classes, the `AttributeError` from calling dict methods on a
non-dict, and anything else.  `main` treats all of them alike (exit 1). -/
inductive PyExc where
  | runtimeError (msg : List Char) : PyExc
  | urlError (msg : List Char) : PyExc
  | attributeError : PyExc
  | otherError (msg : List Char) : PyExc

/-- `"thread_not_found" in str(e)` guarded by `except RuntimeError` (lines
304-307): only a `RuntimeError` whose text contains the substring counts. -/
def isThreadNotFound : PyExc → Bool
  | .runtimeError msg => decide ("thread_not_found".data <:+: msg)
  | _ => false

/-- Observable effects of one invocation, in order: thread-store reads and
writes, Slack API posts (`threadTs = none` for a root message), webhook
posts, desktop notifications, debug-log appends. -/
inductive Event where
  | storeLoad : Event
  | storeSave (tbl : List (String × Json)) : Event
  | apiCall (threadTs : Option String) : Event
  | webhookCall : Event
  | desktopNotify : Event
  | debugWrite (used : String) : Event

/-- The delivery backend an event belongs to, if any. -/
inductive Tier where
  | api : Tier
  | webhook : Tier
  | desktop : Tier
deriving DecidableEq

def tierOf : Event → Option Tier
  | .apiCall _ => some .api
  | .webhookCall => some .webhook
  | .desktopNotify => some .desktop
  | _ => none

/-- `threads[session_key] = entry` on a Python dict: replace in place if
the key is present, else append. -/
def dictInsert : List (String × Json) → String → Json → List (String × Json)
  | [], k, v => [(k, v)]
  | (k', v') :: rest, k, v =>
    if k' = k then (k, v) :: rest else (k', v') :: dictInsert rest k v

/-- The entry the script stores:
`{"channel": channel, "thread_ts": ts, "updated_at": int(time.time())}`. -/
def mkEntry (channel ts : String) (now : Int) : Json :=
  .obj [("channel", .str channel), ("thread_ts", .str ts),
        ("updated_at", .num now)]

/-- Lines 268-273: the stored thread handle is used only if the entry is a
dict whose `channel` equals the configured channel and whose `thread_ts`
is a non-empty string. -/
def threadTsOf (threads : List (String × Json)) (sk channel : String) :
    Option String :=
  match List.lookup sk threads with
  | some (Json.obj e) =>
    match List.lookup "channel" e with
    | some (Json.str c) =>
      if c = channel then
        match List.lookup "thread_ts" e with
        | some (Json.str v) => if v ≠ "" then some v else none
        | _ => none
      else none
    | _ => none
  | _ => none

/-- Outcome of `_send_slack_api` (run under `_with_threads_lock`):
`exc = none` means it returned normally; `file` is the thread-store file
afterwards; `events` the effect trace. -/
structure ApiOutcome where
  exc : Option PyExc
  file : FileState
  events : List Event

def dbgEv (debug : Bool) (used : String) : List Event :=
  if debug then [.debugWrite used] else []

/-- Lines 309-327: post a new top-level message, store the returned `ts`
for the session key, save, optionally debug-log.  `rootOut` is the network
oracle for this `_post_chat_post_message` call. -/
def startNewThread (channel sk : String) (debug : Bool) (fs : FileState)
    (now : Int) (rootOut : Except PyExc String)
    (threads : List (String × Json)) (prior : List Event) : ApiOutcome :=
  match rootOut with
  | .ok ts =>
    let threads' := dictInsert threads sk (mkEntry channel ts now)
    { exc := none, file := saveThreads threads',
      events := prior ++ [.apiCall none, .storeSave threads'] ++
        dbgEv debug "slack_api_root" }
  | .error e =>
    { exc := some e, file := fs, events := prior ++ [.apiCall none] }

/-- `_send_slack_api` (lines 265-327).  `replyOut`/`rootOut` are the
oracles for the outcomes of the (at most two) `_post_chat_post_message`
calls.  A thread-store file whose JSON is not an object makes
`_prune_threads(threads).items()` raise `AttributeError` (caught only by
`main`'s blanket handler). -/
def sendSlackApi (channel sk : String) (debug : Bool) (fs : FileState)
    (now : Int) (replyOut rootOut : Except PyExc String) : ApiOutcome :=
  match loadThreads fs with
  | Json.obj kvs =>
    let threads := pruneThreads now kvs
    match threadTsOf threads sk channel with
    | some tts =>
      match replyOut with
      | .ok _ =>
        let threads' := dictInsert threads sk (mkEntry channel tts now)
        { exc := none, file := saveThreads threads',
          events := [.storeLoad, .apiCall (some tts), .storeSave threads'] ++
            dbgEv debug "slack_api_reply" }
      | .error e =>
        if isThreadNotFound e then
          startNewThread channel sk debug fs now rootOut threads
            [.storeLoad, .apiCall (some tts)]
        else
          { exc := some e, file := fs,
            events := [.storeLoad, .apiCall (some tts)] }
    | none => startNewThread channel sk debug fs now rootOut threads [.storeLoad]
  | _ => { exc := some .attributeError, file := fs, events := [.storeLoad] }

/-- Result of one invocation of the script. -/
structure MainResult where
  exitCode : Nat
  file : FileState
  events : List Event

/-- The body of `main`'s `try` block (lines 256-365): read the four
environment variables (stripped), pick one backend by strict precedence,
run it, and map a raised exception to exit 1 (both `except` clauses, lines
366-371, print and return 1). -/
def deliver (env : Env) (sk : String) (fs : FileState) (now : Int)
    (replyOut rootOut : Except PyExc String) (webhookOut : Except PyExc Unit)
    (notifySendAvail : Bool) (notifyOut : Except PyExc Unit) : MainResult :=
  let botToken := pyStrip env.slackBotToken
  let channel := pyStrip env.slackChannel
  let webhookUrl := pyStrip env.slackWebhookUrl
  let debugPath := pyStrip env.codexNotifyDebugPath
  if botToken ≠ "" ∧ channel ≠ "" then
    let r := sendSlackApi channel sk (debugPath ≠ "") fs now replyOut rootOut
    match r.exc with
    | none => ⟨0, r.file, r.events⟩
    | some _ => ⟨1, r.file, r.events⟩
  else if webhookUrl ≠ "" then
    match webhookOut with
    | .ok _ => ⟨0, fs, [.webhookCall] ++ dbgEv (debugPath ≠ "") "webhook"⟩
    | .error _ => ⟨1, fs, [.webhookCall]⟩
  else
    if ¬ notifySendAvail then ⟨1, fs, []⟩
    else
      match notifyOut with
      | .ok _ => ⟨0, fs, [.desktopNotify] ++ dbgEv (debugPath ≠ "") "notify_send"⟩
      | .error _ => ⟨1, fs, [.desktopNotify]⟩

/-- `main()` (lines 230-371).  `arg` models `sys.argv[1]`: `none` when the
argument is missing (usage error, exit 2), `some (.error ())` when
`json.loads` fails on it (exit 2), `some (.ok j)` when it parses to `j`.
A parse result that is not a JSON object raises an uncaught
`AttributeError` at `notification.get("type")`, which makes the
interpreter exit with code 1.  `webhookOut` is the `_post_webhook`
oracle; `notifySendAvail` models `shutil.which("notify-send")`;
`notifyOut` the `subprocess.run` outcome. -/
def mainModel (arg : Option (Except Unit Json)) (env : Env) (ppid : Nat)
    (fs : FileState) (now : Int) (replyOut rootOut : Except PyExc String)
    (webhookOut : Except PyExc Unit) (notifySendAvail : Bool)
    (notifyOut : Except PyExc Unit) : MainResult :=
  match arg with
  | none => ⟨2, fs, []⟩
  | some (.error _) => ⟨2, fs, []⟩
  | some (.ok (Json.obj n)) =>
    let typeMatches : Bool :=
      match dictGet n "type" with
      | some (Json.str t) => t = "agent-turn-complete"
      | _ => false
    if typeMatches = false then ⟨0, fs, []⟩
    else
      deliver env (sessionKey (extractSessionId n env) ppid) fs now replyOut
        rootOut webhookOut notifySendAvail notifyOut
  | some (.ok _) => ⟨1, fs, []⟩

/-! ### Helper lemmas -/

/-- The keep condition of `_prune_threads`, as a predicate. -/
def keepEntry (now : Int) (kv : String × Json) : Bool :=
  decide (kv.1 ≠ "") &&
    (match kv.2 with
     | Json.obj e =>
       match jsonAsPyInt ((List.lookup "updated_at" e).getD Json.null) with
       | some u => decide (now - u ≤ 604800)
       | none => true
     | _ => false)

theorem pruneThreads_eq_filter (now : Int) (t : List (String × Json)) :
    pruneThreads now t = t.filter (keepEntry now) := by
  induction t with
  | nil => rfl
  | cons kv rest ih =>
    obtain ⟨sid, entry⟩ := kv
    by_cases hsid : sid = ""
    · subst hsid
      simp [pruneThreads, List.filter, keepEntry, ih]
    · cases entry with
      | obj e =>
        cases hu : jsonAsPyInt ((List.lookup "updated_at" e).getD Json.null) with
        | some u =>
          by_cases hage : now - u > 604800
          · have hkeep : keepEntry now (sid, Json.obj e) = false := by
              simp [keepEntry, hsid, hu]
              omega
            simp [pruneThreads, hsid, hu, hage, List.filter, hkeep, ih]
          · have hkeep : keepEntry now (sid, Json.obj e) = true := by
              simp [keepEntry, hsid, hu]
              omega
            simp [pruneThreads, hsid, hu, hage, List.filter, hkeep, ih]
        | none => simp [pruneThreads, hsid, hu, List.filter, keepEntry, ih]
      | null => simp [pruneThreads, hsid, List.filter, keepEntry, ih]
      | bool b => simp [pruneThreads, hsid, List.filter, keepEntry, ih]
      | num m => simp [pruneThreads, hsid, List.filter, keepEntry, ih]
      | str s => simp [pruneThreads, hsid, List.filter, keepEntry, ih]
      | arr xs => simp [pruneThreads, hsid, List.filter, keepEntry, ih]

theorem pruneThreads_sublist (now : Int) (t : List (String × Json)) :
    List.Sublist (pruneThreads now t) t := by
  rw [pruneThreads_eq_filter]
  exact List.filter_sublist t

/-! ### C7: truncation -/

/-- C7: for every body text and limit (all limits configured in the script
are positive), a text longer than the limit is cut to exactly `limit`
characters ending in a single `…`; a text at or under the limit is
returned unchanged. -/
theorem C7_truncate_spec (text : List Char) (limit : Nat) (hpos : 1 ≤ limit) :
    (limit < text.length →
      (truncate text limit).length = limit ∧
      (truncate text limit).getLast? = some '…') ∧
    (text.length ≤ limit → truncate text limit = text) := by
  constructor
  · intro hlt
    unfold truncate
    rw [if_neg (by omega)]
    refine ⟨?_, ?_⟩
    · simp only [List.length_append, List.length_take, List.length_cons,
        List.length_nil]
      omega
    · exact List.getLast?_concat _
  · intro hle
    unfold truncate
    rw [if_pos hle]

theorem C7_truncate_spec_witness :
    (truncate "abcdefgh".data 5).length = 5 ∧
    (truncate "abcdefgh".data 5).getLast? = some '…' :=
  (C7_truncate_spec "abcdefgh".data 5 (by decide)).1 (by decide)

/-! ### C10: session keys -/

/-- C10: the session key is never empty and has one of two disjoint forms:
`"sid:" ++ id` when the extracted id is non-empty, else
`"ppid:" ++ ppid`; keys of the two forms never collide. -/
theorem C10_session_key_forms (sid : String) (ppid : Nat) (sid₂ : String)
    (ppid₂ : Nat) (hne : sid ≠ "") (hemp : sid₂ = "") :
    sessionKey sid ppid ≠ "" ∧
    sessionKey sid ppid = "sid:" ++ sid ∧
    sessionKey sid₂ ppid₂ = "ppid:" ++ toString ppid₂ ∧
    sessionKey sid₂ ppid₂ ≠ "" ∧
    sessionKey sid ppid ≠ sessionKey sid₂ ppid₂ := by
  have h1 : sessionKey sid ppid = "sid:" ++ sid := by
    simp [sessionKey, hne]
  have h2 : sessionKey sid₂ ppid₂ = "ppid:" ++ toString ppid₂ := by
    simp [sessionKey, hemp]
  refine ⟨?_, h1, h2, ?_, ?_⟩
  · rw [h1]
    intro hcontra
    have := congrArg String.data hcontra
    simp [String.data_append] at this
  · rw [h2]
    intro hcontra
    have := congrArg String.data hcontra
    simp [String.data_append] at this
  · rw [h1, h2]
    intro hcontra
    have := congrArg String.data hcontra
    simp [String.data_append] at this

theorem C10_session_key_forms_witness :
    sessionKey "abc" 7 ≠ "" ∧
    sessionKey "abc" 7 = "sid:" ++ "abc" ∧
    sessionKey "" 42 = "ppid:" ++ toString 42 ∧
    sessionKey "" 42 ≠ "" ∧
    sessionKey "abc" 7 ≠ sessionKey "" 42 :=
  C10_session_key_forms "abc" 7 "" 42 (by decide) rfl

/-! ### C9: prune is idempotent and never adds or alters entries -/

/-- C9 (implicit): at a fixed current time, prune is idempotent, and every
entry of the pruned table is an entry of the input table, unmodified. -/
theorem C9_prune_idempotent_and_subset (now : Int)
    (t : List (String × Json)) :
    pruneThreads now (pruneThreads now t) = pruneThreads now t ∧
    ∀ kv, kv ∈ pruneThreads now t → kv ∈ t := by
  constructor
  · simp [pruneThreads_eq_filter, List.filter_filter]
  · intro kv h
    exact (pruneThreads_sublist now t).subset h

theorem C9_prune_idempotent_and_subset_witness :
    (pruneThreads 0 (pruneThreads 0 [("k", Json.obj [])]) =
      pruneThreads 0 [("k", Json.obj [])]) ∧
    ("k", Json.obj []) ∈ [("k", Json.obj [])] :=
  ⟨(C9_prune_idempotent_and_subset 0 [("k", Json.obj [])]).1,
   (C9_prune_idempotent_and_subset 0 [("k", Json.obj [])]).2
     ("k", Json.obj []) (by simp [pruneThreads, jsonAsPyInt])⟩

/-! ### C4: what prune keeps -/

/-- The spec's well-formed `ThreadEntry` (§3: `{channel: string,
thread handle: string, updated_at: integer timestamp}`, with C4 reading
`updated_at` as optional).  This definition follows the spec's words, to
be compared against what `_prune_threads` actually checks. -/
def specWellFormedThreadEntry (j : Json) : Prop :=
  ∃ e, j = Json.obj e ∧
    (∃ c, List.lookup "channel" e = some (Json.str c)) ∧
    (∃ ts, List.lookup "thread_ts" e = some (Json.str ts)) ∧
    (List.lookup "updated_at" e = none ∨
      ∃ u : Int, List.lookup "updated_at" e = some (Json.num u))

/-- C4 counterexample: `_prune_threads` keeps `{"k": {}}` although `{}` is
not a well-formed ThreadEntry (it has no `channel` and no `thread_ts`), so
the pruned table does not contain *exactly* the entries the claim
describes. -/
theorem C4_counterexample :
    pruneThreads 0 [("k", Json.obj [])] = [("k", Json.obj [])] ∧
    ¬ specWellFormedThreadEntry (Json.obj []) := by
  constructor
  · rfl
  · rintro ⟨e, he, ⟨c, hc⟩, -⟩
    cases he
    simp [List.lookup] at hc

/-- C4 (amended): prune returns exactly those entries whose key is a
non-empty string, whose value is a dict (not necessarily a well-formed
ThreadEntry), and whose `updated_at`, whenever it is an integer (or bool),
is within the 604800-second window; a missing or non-integer `updated_at`
is never grounds for dropping. -/
theorem C4_prune_membership (now : Int) (t : List (String × Json))
    (kv : String × Json) :
    kv ∈ pruneThreads now t ↔
      kv ∈ t ∧ kv.1 ≠ "" ∧
      ∃ e, kv.2 = Json.obj e ∧
        ∀ u : Int,
          jsonAsPyInt ((List.lookup "updated_at" e).getD Json.null) = some u →
          now - u ≤ 604800 := by
  rw [pruneThreads_eq_filter, List.mem_filter]
  constructor
  · rintro ⟨hmem, hkeep⟩
    refine ⟨hmem, ?_, ?_⟩
    · simp [keepEntry] at hkeep
      exact hkeep.1
    · simp [keepEntry] at hkeep
      obtain ⟨-, h2⟩ := hkeep
      cases h : kv.2 with
      | obj e =>
        refine ⟨e, rfl, ?_⟩
        intro u hu
        rw [h] at h2
        simp [hu] at h2
        omega
      | null => rw [h] at h2; simp at h2
      | bool b => rw [h] at h2; simp at h2
      | num m => rw [h] at h2; simp at h2
      | str s => rw [h] at h2; simp at h2
      | arr xs => rw [h] at h2; simp at h2
  · rintro ⟨hmem, hk, e, he, hage⟩
    refine ⟨hmem, ?_⟩
    simp [keepEntry, hk, he]
    cases hu : jsonAsPyInt ((List.lookup "updated_at" e).getD Json.null) with
    | some u => simpa using hage u hu
    | none => simp

theorem C4_prune_membership_witness :
    ("k", Json.obj []) ∈ pruneThreads 0 [("k", Json.obj [])] ↔
      ("k", Json.obj []) ∈ [("k", Json.obj [])] ∧ "k" ≠ "" ∧
      ∃ e, (Json.obj [] : Json) = Json.obj e ∧
        ∀ u : Int,
          jsonAsPyInt ((List.lookup "updated_at" e).getD Json.null) = some u →
          (0 : Int) - u ≤ 604800 :=
  C4_prune_membership 0 [("k", Json.obj [])] ("k", Json.obj [])

/-! ### C8: non-matching event types are ignored -/

/-- C8: a well-formed record whose `type` is not the string
`"agent-turn-complete"` makes the invocation exit 0 with no effects at
all: no network call, no thread-store read or write, no debug line, no
desktop notification, and the store file untouched. -/
theorem C8_nonmatching_type_no_effects (n : List (String × Json)) (env : Env)
    (ppid : Nat) (fs : FileState) (now : Int)
    (replyOut rootOut : Except PyExc String) (webhookOut : Except PyExc Unit)
    (avail : Bool) (notifyOut : Except PyExc Unit)
    (htype : ∀ t, dictGet n "type" = some (Json.str t) →
      t ≠ "agent-turn-complete") :
    mainModel (some (.ok (Json.obj n))) env ppid fs now replyOut rootOut
      webhookOut avail notifyOut = ⟨0, fs, []⟩ := by
  unfold mainModel
  cases h : dictGet n "type" with
  | none => simp [h]
  | some v =>
    cases v with
    | str t =>
      have := htype t h
      simp [h, this]
    | null => simp [h]
    | bool b => simp [h]
    | num m => simp [h]
    | arr xs => simp [h]
    | obj kvs => simp [h]

theorem C8_nonmatching_type_no_effects_witness :
    mainModel (some (.ok (Json.obj [("type", Json.str "session-start")])))
      ⟨"tok", "C", "http://wh", "", "", "", ""⟩ 1 FileState.absent 0
      (.ok "1.0") (.ok "2.0") (.ok ()) true (.ok ()) =
      ⟨0, FileState.absent, []⟩ :=
  C8_nonmatching_type_no_effects [("type", Json.str "session-start")]
    ⟨"tok", "C", "http://wh", "", "", "", ""⟩ 1 FileState.absent 0
    (.ok "1.0") (.ok "2.0") (.ok ()) true (.ok ())
    (by
      intro t ht
      simp [dictGet, List.lookup] at ht
      subst ht
      decide)

/-! ### C6: a missing or corrupt thread store is never fatal -/

/-- C6: `_load_threads` returns `{}` for a missing file and for contents
that fail to parse, and a corrupt store file is never fatal: an
invocation running against a corrupt store behaves exactly like one
running against no store at all (same exit code, same effect trace), for
every input and every network outcome. -/
theorem C6_corrupt_store_never_fatal (arg : Option (Except Unit Json))
    (env : Env) (ppid : Nat) (now : Int)
    (replyOut rootOut : Except PyExc String) (webhookOut : Except PyExc Unit)
    (avail : Bool) (notifyOut : Except PyExc Unit) :
    loadThreads FileState.corrupt = Json.obj [] ∧
    loadThreads FileState.absent = Json.obj [] ∧
    (mainModel arg env ppid FileState.corrupt now replyOut rootOut webhookOut
        avail notifyOut).exitCode =
      (mainModel arg env ppid FileState.absent now replyOut rootOut webhookOut
        avail notifyOut).exitCode ∧
    (mainModel arg env ppid FileState.corrupt now replyOut rootOut webhookOut
        avail notifyOut).events =
      (mainModel arg env ppid FileState.absent now replyOut rootOut webhookOut
        avail notifyOut).events := by
  refine ⟨rfl, rfl, ?_⟩
  have happi : ∀ channel sk debug,
      (sendSlackApi channel sk debug FileState.corrupt now replyOut rootOut).exc =
        (sendSlackApi channel sk debug FileState.absent now replyOut rootOut).exc ∧
      (sendSlackApi channel sk debug FileState.corrupt now replyOut rootOut).events =
        (sendSlackApi channel sk debug FileState.absent now replyOut rootOut).events := by
    intro channel sk debug
    simp only [sendSlackApi, loadThreads, pruneThreads, threadTsOf, List.lookup]
    cases rootOut <;> simp [startNewThread]
  have hdel : ∀ sk,
      (deliver env sk FileState.corrupt now replyOut rootOut webhookOut
        avail notifyOut).exitCode =
      (deliver env sk FileState.absent now replyOut rootOut webhookOut
        avail notifyOut).exitCode ∧
      (deliver env sk FileState.corrupt now replyOut rootOut webhookOut
        avail notifyOut).events =
      (deliver env sk FileState.absent now replyOut rootOut webhookOut
        avail notifyOut).events := by
    intro sk
    obtain ⟨h1, h2⟩ := happi (pyStrip env.slackChannel) sk
      (pyStrip env.codexNotifyDebugPath ≠ "")
    simp only [deliver]
    by_cases hbt : pyStrip env.slackBotToken ≠ "" ∧ pyStrip env.slackChannel ≠ ""
    · simp only [if_pos hbt]
      rw [h1, h2]
      cases (sendSlackApi (pyStrip env.slackChannel) sk
          (pyStrip env.codexNotifyDebugPath ≠ "") FileState.absent now
          replyOut rootOut).exc <;> simp
    · simp only [if_neg hbt]
      by_cases hwh : pyStrip env.slackWebhookUrl ≠ ""
      · simp only [if_pos hwh]
        cases webhookOut <;> simp
      · simp only [if_neg hwh]
        by_cases hav : avail
        · simp only [hav]
          cases notifyOut <;> simp
        · simp [hav]
  match arg with
  | none => exact ⟨rfl, rfl⟩
  | some (.error _) => exact ⟨rfl, rfl⟩
  | some (.ok (Json.null)) => exact ⟨rfl, rfl⟩
  | some (.ok (Json.bool b)) => exact ⟨rfl, rfl⟩
  | some (.ok (Json.num m)) => exact ⟨rfl, rfl⟩
  | some (.ok (Json.str s)) => exact ⟨rfl, rfl⟩
  | some (.ok (Json.arr xs)) => exact ⟨rfl, rfl⟩
  | some (.ok (Json.obj n)) =>
    simp only [mainModel]
    cases h : (match dictGet n "type" with
      | some (Json.str t) => decide (t = "agent-turn-complete")
      | _ => false : Bool) with
    | false => simp [h]
    | true =>
      simp only [h, Bool.true_eq_false, if_false]
      exact hdel (sessionKey (extractSessionId n env) ppid)

/-! ### Association-list lookup lemmas -/

theorem lookup_none_iff {l : List (String × Json)} {k : String} :
    List.lookup k l = none ↔ k ∉ l.map Prod.fst := by
  induction l with
  | nil => simp
  | cons p rest ih =>
    obtain ⟨a, b⟩ := p
    by_cases hk : k = a
    · subst hk
      simp [List.lookup]
    · simp [List.lookup, hk, ih, beq_false_of_ne hk]

theorem mem_of_lookup_some {l : List (String × Json)} {k : String} {v : Json}
    (h : List.lookup k l = some v) : (k, v) ∈ l := by
  induction l with
  | nil => simp [List.lookup] at h
  | cons p rest ih =>
    obtain ⟨a, b⟩ := p
    by_cases hk : k = a
    · subst hk
      simp [List.lookup] at h
      simp [h]
    · simp [List.lookup, beq_false_of_ne hk] at h
      exact List.mem_cons_of_mem _ (ih h)

theorem lookup_some_of_mem_nodup {l : List (String × Json)} {k : String}
    {v : Json} (hnd : (l.map Prod.fst).Nodup) (hmem : (k, v) ∈ l) :
    List.lookup k l = some v := by
  induction l with
  | nil => simp at hmem
  | cons p rest ih =>
    obtain ⟨a, b⟩ := p
    simp only [List.map_cons, List.nodup_cons] at hnd
    rcases List.mem_cons.mp hmem with heq | hmem'
    · obtain ⟨rfl, rfl⟩ := Prod.mk.injEq .. ▸ heq
      simp [List.lookup]
    · have hk : k ≠ a := by
        rintro rfl
        exact hnd.1 (List.mem_map_of_mem Prod.fst hmem')
      simp [List.lookup, beq_false_of_ne hk]
      exact ih hnd.2 hmem'

theorem lookup_eq_of_perm {l₁ l₂ : List (String × Json)}
    (h : List.Perm l₁ l₂) (hnd : (l₂.map Prod.fst).Nodup) (k : String) :
    List.lookup k l₁ = List.lookup k l₂ := by
  have hnd₁ : (l₁.map Prod.fst).Nodup := ((h.map Prod.fst).nodup_iff).mpr hnd
  cases h₁ : List.lookup k l₁ with
  | some v =>
    exact (lookup_some_of_mem_nodup hnd (h.subset (mem_of_lookup_some h₁))).symm
  | none =>
    cases h₂ : List.lookup k l₂ with
    | none => rfl
    | some v =>
      have := lookup_some_of_mem_nodup hnd₁ (h.symm.subset (mem_of_lookup_some h₂))
      rw [h₁] at this
      exact absurd this (by simp)

/-! ### `sortKeysJson` computation lemmas -/

theorem sortKeysJson_obj (kvs : List (String × Json)) :
    sortKeysJson (Json.obj kvs) =
      Json.obj (sortPairs (kvs.map fun p => (p.1, sortKeysJson p.2))) := by
  rw [sortKeysJson]
  congr 1
  congr 1
  exact List.attach_map_val kvs fun p => (p.1, sortKeysJson p.2)

/-- Entries the program writes into the store:
`{"channel": c, "thread_ts": ts, "updated_at": u}`. -/
def ThreadEntryShaped (j : Json) : Prop :=
  ∃ c ts u, j = mkEntry c ts u

theorem shaped_sortKeys_fix {j : Json} (h : ThreadEntryShaped j) :
    sortKeysJson j = j := by
  obtain ⟨c, ts, u, rfl⟩ := h
  rw [mkEntry, sortKeysJson_obj]
  simp only [List.map_cons, List.map_nil, sortKeysJson]
  simp [sortPairs, List.insertionSort, List.orderedInsert, keyLE]
  decide

/-! ### C5: save-then-load round-trip -/

/-- C5: for a table whose entries have the ThreadEntry shape (and whose
keys are unique, as Python dict keys are), saving and re-loading yields
the same table: the loaded object is a permutation of the saved one
(`sort_keys=True` reorders pairs) and agrees with it on every lookup,
which is Python dict equality. -/
theorem C5_save_load_roundtrip (t : List (String × Json))
    (hshape : ∀ kv ∈ t, ThreadEntryShaped kv.2)
    (hnd : (t.map Prod.fst).Nodup) :
    ∃ t', loadThreads (saveThreads t) = Json.obj t' ∧ List.Perm t' t ∧
      ∀ k, List.lookup k t' = List.lookup k t := by
  refine ⟨sortPairs t, ?_, List.perm_insertionSort keyLE t,
    fun k => lookup_eq_of_perm (List.perm_insertionSort keyLE t) hnd k⟩
  show sortKeysJson (Json.obj t) = _
  rw [sortKeysJson_obj]
  congr 2
  have hfix : ∀ p ∈ t, (fun q : String × Json => (q.1, sortKeysJson q.2)) p = id p := by
    intro p hp
    have := shaped_sortKeys_fix (hshape p hp)
    obtain ⟨a, b⟩ := p
    simp at this ⊢
    exact this
  rw [List.map_congr_left hfix, List.map_id]

theorem C5_save_load_roundtrip_witness :
    ∃ t', loadThreads (saveThreads [("sid:abc", mkEntry "C" "111.222" 5)]) =
        Json.obj t' ∧
      List.Perm t' [("sid:abc", mkEntry "C" "111.222" 5)] ∧
      ∀ k, List.lookup k t' =
        List.lookup k [("sid:abc", mkEntry "C" "111.222" 5)] :=
  C5_save_load_roundtrip [("sid:abc", mkEntry "C" "111.222" 5)]
    (by
      intro kv hkv
      simp at hkv
      subst hkv
      exact ⟨"C", "111.222", 5, rfl⟩)
    (by simp)

/-! ### dictInsert lemmas -/

theorem dictInsert_lookup_self (l : List (String × Json)) (k : String)
    (v : Json) : List.lookup k (dictInsert l k v) = some v := by
  induction l with
  | nil => simp [dictInsert, List.lookup]
  | cons p rest ih =>
    obtain ⟨a, b⟩ := p
    by_cases ha : a = k
    · simp [dictInsert, ha, List.lookup]
    · have hk : k ≠ a := fun h => ha h.symm
      simp [dictInsert, ha, List.lookup, beq_false_of_ne hk, ih]

theorem mem_keys_dictInsert {l : List (String × Json)} {k x : String}
    {v : Json} (h : x ∈ (dictInsert l k v).map Prod.fst) :
    x ∈ l.map Prod.fst ∨ x = k := by
  induction l with
  | nil => simp [dictInsert] at h; simp [h]
  | cons p rest ih =>
    obtain ⟨a, b⟩ := p
    by_cases ha : a = k
    · simp [dictInsert, ha] at h
      rcases h with rfl | h
      · simp
      · simp [h]
    · simp [dictInsert, ha] at h
      rcases h with rfl | h
      · simp
      · rcases ih (by simpa using h) with h' | h'
        · simp [h']
        · simp [h']

theorem nodup_keys_dictInsert {l : List (String × Json)} {k : String}
    {v : Json} (hnd : (l.map Prod.fst).Nodup) :
    ((dictInsert l k v).map Prod.fst).Nodup := by
  induction l with
  | nil => simp [dictInsert]
  | cons p rest ih =>
    obtain ⟨a, b⟩ := p
    simp only [List.map_cons, List.nodup_cons] at hnd
    by_cases ha : a = k
    · subst ha
      simp [dictInsert]
      constructor
      · intro x hx
        exact hnd.1 (List.mem_map_of_mem Prod.fst hx)
      · exact hnd.2
    · simp only [dictInsert, ha, if_false, List.map_cons, List.nodup_cons]
      refine ⟨?_, ih hnd.2⟩
      intro hmem
      rcases mem_keys_dictInsert hmem with h' | h'
      · exact hnd.1 h'
      · exact ha h'

theorem lookup_map_snd (l : List (String × Json)) (k : String)
    (f : Json → Json) :
    List.lookup k (l.map fun p => (p.1, f p.2)) =
      Option.map f (List.lookup k l) := by
  induction l with
  | nil => simp
  | cons p rest ih =>
    obtain ⟨a, b⟩ := p
    by_cases hk : k = a
    · subst hk
      simp [List.lookup]
    · simp [List.lookup, beq_false_of_ne hk, ih]

theorem map_fst_map_snd (l : List (String × Json)) (f : Json → Json) :
    (l.map fun p => (p.1, f p.2)).map Prod.fst = l.map Prod.fst := by
  simp [List.map_map, Function.comp]

/-! ### load/save composition -/

theorem loadThreads_saveThreads (tbl : List (String × Json)) :
    loadThreads (saveThreads tbl) =
      Json.obj (sortPairs (tbl.map fun p => (p.1, sortKeysJson p.2))) :=
  sortKeysJson_obj tbl

/-- Looking up a key in the re-loaded saved table returns the saved value
with its own keys sorted, provided the table's keys are unique. -/
theorem lookup_loadThreads_saveThreads (tbl : List (String × Json))
    (k : String) (hnd : (tbl.map Prod.fst).Nodup) :
    List.lookup k (sortPairs (tbl.map fun p => (p.1, sortKeysJson p.2))) =
      Option.map sortKeysJson (List.lookup k tbl) := by
  have hnd' : ((tbl.map fun p => (p.1, sortKeysJson p.2)).map Prod.fst).Nodup := by
    rw [map_fst_map_snd]
    exact hnd
  unfold sortPairs
  rw [lookup_eq_of_perm (List.perm_insertionSort keyLE _) hnd' k,
    lookup_map_snd]

/-! ### sendSlackApi and deliver case lemmas -/

theorem sendSlackApi_reply_fail_other (channel sk : String) (debug : Bool)
    (fs : FileState) (now : Int) (replyOut rootOut : Except PyExc String)
    (kvs : List (String × Json)) (tts : String) (e : PyExc)
    (hload : loadThreads fs = Json.obj kvs)
    (hts : threadTsOf (pruneThreads now kvs) sk channel = some tts)
    (hre : replyOut = .error e) (htnf : isThreadNotFound e = false) :
    sendSlackApi channel sk debug fs now replyOut rootOut =
      ⟨some e, fs, [.storeLoad, .apiCall (some tts)]⟩ := by
  subst hre
  simp [sendSlackApi, hload, hts, htnf]

theorem sendSlackApi_reply_tnf_root_ok (channel sk : String) (debug : Bool)
    (fs : FileState) (now : Int) (replyOut rootOut : Except PyExc String)
    (kvs : List (String × Json)) (tts : String) (e : PyExc) (ts' : String)
    (hload : loadThreads fs = Json.obj kvs)
    (hts : threadTsOf (pruneThreads now kvs) sk channel = some tts)
    (hre : replyOut = .error e) (htnf : isThreadNotFound e = true)
    (hroot : rootOut = .ok ts') :
    sendSlackApi channel sk debug fs now replyOut rootOut =
      ⟨none,
       saveThreads (dictInsert (pruneThreads now kvs) sk (mkEntry channel ts' now)),
       [.storeLoad, .apiCall (some tts), .apiCall none,
        .storeSave (dictInsert (pruneThreads now kvs) sk (mkEntry channel ts' now))] ++
         dbgEv debug "slack_api_root"⟩ := by
  subst hre
  subst hroot
  simp [sendSlackApi, hload, hts, htnf, startNewThread]

theorem sendSlackApi_root_fail (channel sk : String) (debug : Bool)
    (fs : FileState) (now : Int) (replyOut rootOut : Except PyExc String)
    (kvs : List (String × Json)) (e' : PyExc)
    (hload : loadThreads fs = Json.obj kvs)
    (hts : threadTsOf (pruneThreads now kvs) sk channel = none)
    (hroot : rootOut = .error e') :
    sendSlackApi channel sk debug fs now replyOut rootOut =
      ⟨some e', fs, [.storeLoad, .apiCall none]⟩ := by
  subst hroot
  simp [sendSlackApi, hload, hts, startNewThread]

theorem sendSlackApi_reply_tnf_root_fail (channel sk : String) (debug : Bool)
    (fs : FileState) (now : Int) (replyOut rootOut : Except PyExc String)
    (kvs : List (String × Json)) (tts : String) (e e' : PyExc)
    (hload : loadThreads fs = Json.obj kvs)
    (hts : threadTsOf (pruneThreads now kvs) sk channel = some tts)
    (hre : replyOut = .error e) (htnf : isThreadNotFound e = true)
    (hroot : rootOut = .error e') :
    sendSlackApi channel sk debug fs now replyOut rootOut =
      ⟨some e', fs, [.storeLoad, .apiCall (some tts), .apiCall none]⟩ := by
  subst hre
  subst hroot
  simp [sendSlackApi, hload, hts, htnf, startNewThread]

theorem mainModel_turn_complete (n : List (String × Json)) (env : Env)
    (ppid : Nat) (fs : FileState) (now : Int)
    (replyOut rootOut : Except PyExc String) (webhookOut : Except PyExc Unit)
    (avail : Bool) (notifyOut : Except PyExc Unit)
    (htype : dictGet n "type" = some (Json.str "agent-turn-complete")) :
    mainModel (some (.ok (Json.obj n))) env ppid fs now replyOut rootOut
      webhookOut avail notifyOut =
    deliver env (sessionKey (extractSessionId n env) ppid) fs now replyOut
      rootOut webhookOut avail notifyOut := by
  simp [mainModel, htype]

theorem deliver_api_exc (env : Env) (sk : String) (fs : FileState) (now : Int)
    (replyOut rootOut : Except PyExc String) (webhookOut : Except PyExc Unit)
    (avail : Bool) (notifyOut : Except PyExc Unit)
    (hbt : pyStrip env.slackBotToken ≠ "") (hch : pyStrip env.slackChannel ≠ "")
    (e : PyExc)
    (hexc : (sendSlackApi (pyStrip env.slackChannel) sk
      (pyStrip env.codexNotifyDebugPath ≠ "") fs now replyOut rootOut).exc =
        some e) :
    deliver env sk fs now replyOut rootOut webhookOut avail notifyOut =
      ⟨1,
       (sendSlackApi (pyStrip env.slackChannel) sk
         (pyStrip env.codexNotifyDebugPath ≠ "") fs now replyOut rootOut).file,
       (sendSlackApi (pyStrip env.slackChannel) sk
         (pyStrip env.codexNotifyDebugPath ≠ "") fs now replyOut rootOut).events⟩ := by
  simp only [deliver, if_pos (And.intro hbt hch)]
  rw [hexc]

theorem deliver_api_ok (env : Env) (sk : String) (fs : FileState) (now : Int)
    (replyOut rootOut : Except PyExc String) (webhookOut : Except PyExc Unit)
    (avail : Bool) (notifyOut : Except PyExc Unit)
    (hbt : pyStrip env.slackBotToken ≠ "") (hch : pyStrip env.slackChannel ≠ "")
    (hexc : (sendSlackApi (pyStrip env.slackChannel) sk
      (pyStrip env.codexNotifyDebugPath ≠ "") fs now replyOut rootOut).exc =
        none) :
    deliver env sk fs now replyOut rootOut webhookOut avail notifyOut =
      ⟨0,
       (sendSlackApi (pyStrip env.slackChannel) sk
         (pyStrip env.codexNotifyDebugPath ≠ "") fs now replyOut rootOut).file,
       (sendSlackApi (pyStrip env.slackChannel) sk
         (pyStrip env.codexNotifyDebugPath ≠ "") fs now replyOut rootOut).events⟩ := by
  simp only [deliver, if_pos (And.intro hbt hch)]
  rw [hexc]

theorem sendSlackApi_reply_ok (channel sk : String) (debug : Bool)
    (fs : FileState) (now : Int) (replyOut rootOut : Except PyExc String)
    (kvs : List (String × Json)) (tts ts : String)
    (hload : loadThreads fs = Json.obj kvs)
    (hts : threadTsOf (pruneThreads now kvs) sk channel = some tts)
    (hre : replyOut = .ok ts) :
    sendSlackApi channel sk debug fs now replyOut rootOut =
      ⟨none,
       saveThreads (dictInsert (pruneThreads now kvs) sk (mkEntry channel tts now)),
       [.storeLoad, .apiCall (some tts),
        .storeSave (dictInsert (pruneThreads now kvs) sk (mkEntry channel tts now))] ++
         dbgEv debug "slack_api_reply"⟩ := by
  subst hre
  simp [sendSlackApi, hload, hts]

theorem sendSlackApi_root_ok (channel sk : String) (debug : Bool)
    (fs : FileState) (now : Int) (replyOut rootOut : Except PyExc String)
    (kvs : List (String × Json)) (ts' : String)
    (hload : loadThreads fs = Json.obj kvs)
    (hts : threadTsOf (pruneThreads now kvs) sk channel = none)
    (hroot : rootOut = .ok ts') :
    sendSlackApi channel sk debug fs now replyOut rootOut =
      ⟨none,
       saveThreads (dictInsert (pruneThreads now kvs) sk (mkEntry channel ts' now)),
       [.storeLoad, .apiCall none,
        .storeSave (dictInsert (pruneThreads now kvs) sk (mkEntry channel ts' now))] ++
         dbgEv debug "slack_api_root"⟩ := by
  subst hroot
  simp [sendSlackApi, hload, hts, startNewThread]

theorem sendSlackApi_nonobj (channel sk : String) (debug : Bool)
    (fs : FileState) (now : Int) (replyOut rootOut : Except PyExc String)
    (hload : ∀ kvs, loadThreads fs ≠ Json.obj kvs) :
    sendSlackApi channel sk debug fs now replyOut rootOut =
      ⟨some .attributeError, fs, [.storeLoad]⟩ := by
  unfold sendSlackApi
  cases h : loadThreads fs with
  | obj kvs => exact absurd h (hload kvs)
  | null => rfl
  | bool b => rfl
  | num m => rfl
  | str s => rfl
  | arr xs => rfl

theorem mem_dbgEv {ev : Event} {d : Bool} {s : String}
    (h : ev ∈ dbgEv d s) : ev = .debugWrite s := by
  unfold dbgEv at h
  split at h
  · simpa using h
  · simp at h

/-- Every event of the authenticated-API backend is a store access, an API
post, or a debug write: never a webhook call or a desktop notification. -/
theorem sendSlackApi_event_tiers (channel sk : String) (debug : Bool)
    (fs : FileState) (now : Int) (replyOut rootOut : Except PyExc String) :
    ∀ ev ∈ (sendSlackApi channel sk debug fs now replyOut rootOut).events,
      tierOf ev = none ∨ tierOf ev = some Tier.api := by
  intro ev hev
  cases hobj : loadThreads fs with
  | obj kvs =>
    cases hts : threadTsOf (pruneThreads now kvs) sk channel with
    | some tts =>
      cases hre : replyOut with
      | ok ts =>
        rw [sendSlackApi_reply_ok channel sk debug fs now replyOut rootOut kvs
          tts ts hobj hts hre] at hev
        rcases List.mem_append.mp hev with h | h
        · simp at h
          rcases h with rfl | rfl | rfl <;> simp [tierOf]
        · rw [mem_dbgEv h]
          simp [tierOf]
      | error e =>
        by_cases htnf : isThreadNotFound e = true
        · cases hro : rootOut with
          | ok ts' =>
            rw [sendSlackApi_reply_tnf_root_ok channel sk debug fs now replyOut
              rootOut kvs tts e ts' hobj hts hre htnf hro] at hev
            rcases List.mem_append.mp hev with h | h
            · simp at h
              rcases h with rfl | rfl | rfl | rfl <;> simp [tierOf]
            · rw [mem_dbgEv h]
              simp [tierOf]
          | error e' =>
            rw [sendSlackApi_reply_tnf_root_fail channel sk debug fs now replyOut
              rootOut kvs tts e e' hobj hts hre htnf hro] at hev
            simp at hev
            rcases hev with rfl | rfl | rfl <;> simp [tierOf]
        · rw [sendSlackApi_reply_fail_other channel sk debug fs now replyOut
            rootOut kvs tts e hobj hts hre (by simpa using htnf)] at hev
          simp at hev
          rcases hev with rfl | rfl <;> simp [tierOf]
    | none =>
      cases hro : rootOut with
      | ok ts' =>
        rw [sendSlackApi_root_ok channel sk debug fs now replyOut rootOut kvs
          ts' hobj hts hro] at hev
        rcases List.mem_append.mp hev with h | h
        · simp at h
          rcases h with rfl | rfl | rfl <;> simp [tierOf]
        · rw [mem_dbgEv h]
          simp [tierOf]
      | error e' =>
        rw [sendSlackApi_root_fail channel sk debug fs now replyOut rootOut kvs
          e' hobj hts hro] at hev
        simp at hev
        rcases hev with rfl | rfl <;> simp [tierOf]
  | null =>
    rw [sendSlackApi_nonobj channel sk debug fs now replyOut rootOut
      (by rw [hobj]; intro kvs h; cases h)] at hev
    simp at hev
    rw [hev]
    simp [tierOf]
  | bool b =>
    rw [sendSlackApi_nonobj channel sk debug fs now replyOut rootOut
      (by rw [hobj]; intro kvs h; cases h)] at hev
    simp at hev
    rw [hev]
    simp [tierOf]
  | num m =>
    rw [sendSlackApi_nonobj channel sk debug fs now replyOut rootOut
      (by rw [hobj]; intro kvs h; cases h)] at hev
    simp at hev
    rw [hev]
    simp [tierOf]
  | str s =>
    rw [sendSlackApi_nonobj channel sk debug fs now replyOut rootOut
      (by rw [hobj]; intro kvs h; cases h)] at hev
    simp at hev
    rw [hev]
    simp [tierOf]
  | arr xs =>
    rw [sendSlackApi_nonobj channel sk debug fs now replyOut rootOut
      (by rw [hobj]; intro kvs h; cases h)] at hev
    simp at hev
    rw [hev]
    simp [tierOf]

/-- When the store parses to a dict, the API backend always attempts at
least one post. -/
theorem sendSlackApi_makes_api_call (channel sk : String) (debug : Bool)
    (fs : FileState) (now : Int) (replyOut rootOut : Except PyExc String)
    (kvs : List (String × Json)) (hload : loadThreads fs = Json.obj kvs) :
    ∃ x, Event.apiCall x ∈
      (sendSlackApi channel sk debug fs now replyOut rootOut).events := by
  cases hts : threadTsOf (pruneThreads now kvs) sk channel with
  | some tts =>
    cases hre : replyOut with
    | ok ts =>
      rw [sendSlackApi_reply_ok channel sk debug fs now (.ok ts) rootOut kvs
        tts ts hload hts rfl]
      exact ⟨some tts, by simp⟩
    | error e =>
      by_cases htnf : isThreadNotFound e = true
      · cases hro : rootOut with
        | ok ts' =>
          rw [sendSlackApi_reply_tnf_root_ok channel sk debug fs now (.error e)
            (.ok ts') kvs tts e ts' hload hts rfl htnf rfl]
          exact ⟨some tts, by simp⟩
        | error e' =>
          rw [sendSlackApi_reply_tnf_root_fail channel sk debug fs now (.error e)
            (.error e') kvs tts e e' hload hts rfl htnf rfl]
          exact ⟨some tts, by simp⟩
      · rw [sendSlackApi_reply_fail_other channel sk debug fs now (.error e)
          rootOut kvs tts e hload hts rfl (by simpa using htnf)]
        exact ⟨some tts, by simp⟩
  | none =>
    cases hro : rootOut with
    | ok ts' =>
      rw [sendSlackApi_root_ok channel sk debug fs now replyOut (.ok ts') kvs
        ts' hload hts rfl]
      exact ⟨none, by simp⟩
    | error e' =>
      rw [sendSlackApi_root_fail channel sk debug fs now replyOut (.error e') kvs
        e' hload hts rfl]
      exact ⟨none, by simp⟩

/-! ### C1: a failed network send exits 1 and leaves the store untouched -/

/-- C1: with the authenticated-API tier selected, if the network send
fails — the reply post raises with anything but a thread-not-found
`RuntimeError`, or the root post raises — then the invocation exits with
code 1, the thread-store file on disk is exactly what it was before, and
no store write is ever attempted. -/
theorem C1_failed_send_exits_one_store_unchanged (n : List (String × Json))
    (env : Env) (ppid : Nat) (fs : FileState) (now : Int)
    (replyOut rootOut : Except PyExc String) (webhookOut : Except PyExc Unit)
    (avail : Bool) (notifyOut : Except PyExc Unit) (sk channel : String)
    (kvs : List (String × Json))
    (htype : dictGet n "type" = some (Json.str "agent-turn-complete"))
    (hsk : sk = sessionKey (extractSessionId n env) ppid)
    (hchv : channel = pyStrip env.slackChannel)
    (hbt : pyStrip env.slackBotToken ≠ "")
    (hch : pyStrip env.slackChannel ≠ "")
    (hload : loadThreads fs = Json.obj kvs)
    (hfail :
      (∃ tts e, threadTsOf (pruneThreads now kvs) sk channel = some tts ∧
        replyOut = .error e ∧ isThreadNotFound e = false) ∨
      ((threadTsOf (pruneThreads now kvs) sk channel = none ∨
        ∃ tts e, threadTsOf (pruneThreads now kvs) sk channel = some tts ∧
          replyOut = .error e ∧ isThreadNotFound e = true) ∧
        ∃ e', rootOut = .error e')) :
    (mainModel (some (.ok (Json.obj n))) env ppid fs now replyOut rootOut
      webhookOut avail notifyOut).exitCode = 1 ∧
    (mainModel (some (.ok (Json.obj n))) env ppid fs now replyOut rootOut
      webhookOut avail notifyOut).file = fs ∧
    ∀ tbl, Event.storeSave tbl ∉
      (mainModel (some (.ok (Json.obj n))) env ppid fs now replyOut rootOut
        webhookOut avail notifyOut).events := by
  subst hsk
  subst hchv
  rw [mainModel_turn_complete n env ppid fs now replyOut rootOut webhookOut
    avail notifyOut htype]
  rcases hfail with ⟨tts, e, hts, hre, htnf⟩ | ⟨hroot0, e', hroot⟩
  · have happ := sendSlackApi_reply_fail_other (pyStrip env.slackChannel)
      (sessionKey (extractSessionId n env) ppid)
      (pyStrip env.codexNotifyDebugPath ≠ "") fs now replyOut rootOut kvs tts e
      hload hts hre htnf
    rw [deliver_api_exc env (sessionKey (extractSessionId n env) ppid) fs now
      replyOut rootOut webhookOut avail notifyOut hbt hch e (by rw [happ])]
    rw [happ]
    refine ⟨rfl, rfl, ?_⟩
    intro tbl h
    simp at h
  · rcases hroot0 with hts | ⟨tts, e, hts, hre, htnf⟩
    · have happ := sendSlackApi_root_fail (pyStrip env.slackChannel)
        (sessionKey (extractSessionId n env) ppid)
        (pyStrip env.codexNotifyDebugPath ≠ "") fs now replyOut rootOut kvs e'
        hload hts hroot
      rw [deliver_api_exc env (sessionKey (extractSessionId n env) ppid) fs now
        replyOut rootOut webhookOut avail notifyOut hbt hch e' (by rw [happ])]
      rw [happ]
      refine ⟨rfl, rfl, ?_⟩
      intro tbl h
      simp at h
    · have happ := sendSlackApi_reply_tnf_root_fail (pyStrip env.slackChannel)
        (sessionKey (extractSessionId n env) ppid)
        (pyStrip env.codexNotifyDebugPath ≠ "") fs now replyOut rootOut kvs tts
        e e' hload hts hre htnf hroot
      rw [deliver_api_exc env (sessionKey (extractSessionId n env) ppid) fs now
        replyOut rootOut webhookOut avail notifyOut hbt hch e' (by rw [happ])]
      rw [happ]
      refine ⟨rfl, rfl, ?_⟩
      intro tbl h
      simp at h

theorem C1_failed_send_exits_one_store_unchanged_witness :
    (mainModel (some (.ok (Json.obj [("type", Json.str "agent-turn-complete")])))
      ⟨"tok", "C", "", "", "", "", ""⟩ 1 FileState.absent 0
      (.ok "1.0") (.error (PyExc.urlError "timed out".data)) (.ok ()) true
      (.ok ())).exitCode = 1 ∧
    (mainModel (some (.ok (Json.obj [("type", Json.str "agent-turn-complete")])))
      ⟨"tok", "C", "", "", "", "", ""⟩ 1 FileState.absent 0
      (.ok "1.0") (.error (PyExc.urlError "timed out".data)) (.ok ()) true
      (.ok ())).file = FileState.absent ∧
    ∀ tbl, Event.storeSave tbl ∉
      (mainModel (some (.ok (Json.obj [("type", Json.str "agent-turn-complete")])))
        ⟨"tok", "C", "", "", "", "", ""⟩ 1 FileState.absent 0
        (.ok "1.0") (.error (PyExc.urlError "timed out".data)) (.ok ()) true
        (.ok ())).events :=
  C1_failed_send_exits_one_store_unchanged
    [("type", Json.str "agent-turn-complete")] ⟨"tok", "C", "", "", "", "", ""⟩
    1 FileState.absent 0 (.ok "1.0") (.error (PyExc.urlError "timed out".data))
    (.ok ()) true (.ok ())
    (sessionKey (extractSessionId [("type", Json.str "agent-turn-complete")]
      ⟨"tok", "C", "", "", "", "", ""⟩) 1)
    (pyStrip "C") []
    rfl rfl rfl (by decide) (by decide) rfl
    (Or.inr ⟨Or.inl (by decide), PyExc.urlError "timed out".data, rfl⟩)

/-! ### C2: stale-thread recovery inside the same critical section -/

/-- C2: when a stored entry for the session matches the configured channel
and the threaded reply fails with the backend reporting the thread gone
(a `RuntimeError` containing `thread_not_found`), the same invocation —
inside the same lock-guarded `_send_slack_api` call — posts a new
top-level message and overwrites the session's entry with the new thread
handle; any other reply failure propagates and makes the invocation exit
with code 1. -/
theorem C2_stale_thread_recovery (n : List (String × Json)) (env : Env)
    (ppid : Nat) (fs : FileState) (now : Int)
    (replyOut rootOut : Except PyExc String) (webhookOut : Except PyExc Unit)
    (avail : Bool) (notifyOut : Except PyExc Unit) (sk channel : String)
    (kvs : List (String × Json)) (tts : String) (e : PyExc)
    (htype : dictGet n "type" = some (Json.str "agent-turn-complete"))
    (hsk : sk = sessionKey (extractSessionId n env) ppid)
    (hchv : channel = pyStrip env.slackChannel)
    (hbt : pyStrip env.slackBotToken ≠ "")
    (hch : pyStrip env.slackChannel ≠ "")
    (hload : loadThreads fs = Json.obj kvs)
    (hnd : (kvs.map Prod.fst).Nodup)
    (hts : threadTsOf (pruneThreads now kvs) sk channel = some tts)
    (hre : replyOut = .error e) :
    (isThreadNotFound e = true → ∀ ts', rootOut = .ok ts' →
      (mainModel (some (.ok (Json.obj n))) env ppid fs now replyOut rootOut
        webhookOut avail notifyOut).exitCode = 0 ∧
      Event.apiCall none ∈
        (mainModel (some (.ok (Json.obj n))) env ppid fs now replyOut rootOut
          webhookOut avail notifyOut).events ∧
      ∃ t', loadThreads
          (mainModel (some (.ok (Json.obj n))) env ppid fs now replyOut rootOut
            webhookOut avail notifyOut).file = Json.obj t' ∧
        List.lookup sk t' = some (mkEntry channel ts' now)) ∧
    (isThreadNotFound e = false →
      (mainModel (some (.ok (Json.obj n))) env ppid fs now replyOut rootOut
        webhookOut avail notifyOut).exitCode = 1) := by
  subst hsk
  subst hchv
  rw [mainModel_turn_complete n env ppid fs now replyOut rootOut webhookOut
    avail notifyOut htype]
  have hndp : ((pruneThreads now kvs).map Prod.fst).Nodup :=
    hnd.sublist ((pruneThreads_sublist now kvs).map Prod.fst)
  constructor
  · intro htnf ts' hroot
    have happ := sendSlackApi_reply_tnf_root_ok (pyStrip env.slackChannel)
      (sessionKey (extractSessionId n env) ppid)
      (pyStrip env.codexNotifyDebugPath ≠ "") fs now replyOut rootOut kvs tts
      e ts' hload hts hre htnf hroot
    rw [deliver_api_ok env (sessionKey (extractSessionId n env) ppid) fs now
      replyOut rootOut webhookOut avail notifyOut hbt hch (by rw [happ])]
    rw [happ]
    refine ⟨rfl, by simp, ?_⟩
    have hnd' : ((dictInsert (pruneThreads now kvs)
        (sessionKey (extractSessionId n env) ppid)
        (mkEntry (pyStrip env.slackChannel) ts' now)).map Prod.fst).Nodup :=
      nodup_keys_dictInsert hndp
    refine ⟨_, loadThreads_saveThreads _, ?_⟩
    rw [lookup_loadThreads_saveThreads _ _ hnd', dictInsert_lookup_self]
    simp [shaped_sortKeys_fix ⟨pyStrip env.slackChannel, ts', now, rfl⟩]
  · intro htnf
    have happ := sendSlackApi_reply_fail_other (pyStrip env.slackChannel)
      (sessionKey (extractSessionId n env) ppid)
      (pyStrip env.codexNotifyDebugPath ≠ "") fs now replyOut rootOut kvs tts
      e hload hts hre htnf
    rw [deliver_api_exc env (sessionKey (extractSessionId n env) ppid) fs now
      replyOut rootOut webhookOut avail notifyOut hbt hch e (by rw [happ])]

theorem C2_stale_thread_recovery_witness :
    (CodexNotify.isThreadNotFound
        (PyExc.runtimeError "Slack API error: thread_not_found".data) = true →
      ∀ ts', (Except.ok "9.9" : Except PyExc String) = .ok ts' →
        (mainModel (some (.ok (Json.obj [("type", Json.str "agent-turn-complete")])))
          ⟨"tok", "C", "", "", "", "", ""⟩ 1
          (FileState.present (Json.obj [("ppid:1", mkEntry "C" "7.7" 0)])) 0
          (.error (PyExc.runtimeError "Slack API error: thread_not_found".data))
          (.ok "9.9") (.ok ()) true (.ok ())).exitCode = 0 ∧
        Event.apiCall none ∈
          (mainModel (some (.ok (Json.obj [("type", Json.str "agent-turn-complete")])))
            ⟨"tok", "C", "", "", "", "", ""⟩ 1
            (FileState.present (Json.obj [("ppid:1", mkEntry "C" "7.7" 0)])) 0
            (.error (PyExc.runtimeError "Slack API error: thread_not_found".data))
            (.ok "9.9") (.ok ()) true (.ok ())).events ∧
        ∃ t', loadThreads
            (mainModel (some (.ok (Json.obj [("type", Json.str "agent-turn-complete")])))
              ⟨"tok", "C", "", "", "", "", ""⟩ 1
              (FileState.present (Json.obj [("ppid:1", mkEntry "C" "7.7" 0)])) 0
              (.error (PyExc.runtimeError "Slack API error: thread_not_found".data))
              (.ok "9.9") (.ok ()) true (.ok ())).file = Json.obj t' ∧
          List.lookup (sessionKey (extractSessionId
              [("type", Json.str "agent-turn-complete")]
              ⟨"tok", "C", "", "", "", "", ""⟩) 1) t' =
            some (mkEntry (pyStrip "C") ts' 0)) ∧
    (CodexNotify.isThreadNotFound
        (PyExc.runtimeError "Slack API error: thread_not_found".data) = false →
      (mainModel (some (.ok (Json.obj [("type", Json.str "agent-turn-complete")])))
        ⟨"tok", "C", "", "", "", "", ""⟩ 1
        (FileState.present (Json.obj [("ppid:1", mkEntry "C" "7.7" 0)])) 0
        (.error (PyExc.runtimeError "Slack API error: thread_not_found".data))
        (.ok "9.9") (.ok ()) true (.ok ())).exitCode = 1) :=
  C2_stale_thread_recovery [("type", Json.str "agent-turn-complete")]
    ⟨"tok", "C", "", "", "", "", ""⟩ 1
    (FileState.present (Json.obj [("ppid:1", mkEntry "C" "7.7" 0)])) 0
    (.error (PyExc.runtimeError "Slack API error: thread_not_found".data))
    (.ok "9.9") (.ok ()) true (.ok ())
    (sessionKey (extractSessionId [("type", Json.str "agent-turn-complete")]
      ⟨"tok", "C", "", "", "", "", ""⟩) 1)
    (pyStrip "C") [("ppid:1", mkEntry "C" "7.7" 0)] "7.7"
    (PyExc.runtimeError "Slack API error: thread_not_found".data)
    rfl rfl rfl (by decide) (by decide) rfl (by simp)
    (by decide) rfl

/-! ### C3: strict tier precedence -/

/-- The backend `main` selects (lines 263, 333, 350): API when both token
and channel are non-empty after stripping, else webhook when the webhook
URL is non-empty, else the local notification. -/
def selectTier (botToken channel webhookUrl : String) : Tier :=
  if botToken ≠ "" ∧ channel ≠ "" then .api
  else if webhookUrl ≠ "" then .webhook
  else .desktop

/-- The sequence of backend invocations in an invocation's trace. -/
def backendCalls (r : MainResult) : List Tier :=
  r.events.filterMap tierOf

/-- C3: on a turn-complete record, every backend call of the invocation
belongs to the single tier given by strict precedence (so a failure is
never retried at a lower tier), the webhook tier makes exactly one call,
the desktop tier exactly one when the notifier binary exists, and the API
tier at least one whenever the store file parses to a dict. -/
theorem C3_single_backend_strict_precedence (n : List (String × Json))
    (env : Env) (ppid : Nat) (fs : FileState) (now : Int)
    (replyOut rootOut : Except PyExc String) (webhookOut : Except PyExc Unit)
    (avail : Bool) (notifyOut : Except PyExc Unit)
    (htype : dictGet n "type" = some (Json.str "agent-turn-complete")) :
    (∀ t ∈ backendCalls (mainModel (some (.ok (Json.obj n))) env ppid fs now
        replyOut rootOut webhookOut avail notifyOut),
      t = selectTier (pyStrip env.slackBotToken) (pyStrip env.slackChannel)
            (pyStrip env.slackWebhookUrl)) ∧
    (selectTier (pyStrip env.slackBotToken) (pyStrip env.slackChannel)
        (pyStrip env.slackWebhookUrl) = Tier.webhook →
      backendCalls (mainModel (some (.ok (Json.obj n))) env ppid fs now
        replyOut rootOut webhookOut avail notifyOut) = [Tier.webhook]) ∧
    (selectTier (pyStrip env.slackBotToken) (pyStrip env.slackChannel)
        (pyStrip env.slackWebhookUrl) = Tier.desktop → avail = true →
      backendCalls (mainModel (some (.ok (Json.obj n))) env ppid fs now
        replyOut rootOut webhookOut avail notifyOut) = [Tier.desktop]) ∧
    (selectTier (pyStrip env.slackBotToken) (pyStrip env.slackChannel)
        (pyStrip env.slackWebhookUrl) = Tier.api →
      ∀ kvs, loadThreads fs = Json.obj kvs →
        backendCalls (mainModel (some (.ok (Json.obj n))) env ppid fs now
          replyOut rootOut webhookOut avail notifyOut) ≠ []) := by
  rw [mainModel_turn_complete n env ppid fs now replyOut rootOut webhookOut
    avail notifyOut htype]
  by_cases hcfg : pyStrip env.slackBotToken ≠ "" ∧ pyStrip env.slackChannel ≠ ""
  · have hsel : selectTier (pyStrip env.slackBotToken) (pyStrip env.slackChannel)
        (pyStrip env.slackWebhookUrl) = Tier.api := by
      simp [selectTier, hcfg]
    have hev : (deliver env (sessionKey (extractSessionId n env) ppid) fs now
        replyOut rootOut webhookOut avail notifyOut).events =
        (sendSlackApi (pyStrip env.slackChannel)
          (sessionKey (extractSessionId n env) ppid)
          (pyStrip env.codexNotifyDebugPath ≠ "") fs now replyOut rootOut).events := by
      cases hexc : (sendSlackApi (pyStrip env.slackChannel)
          (sessionKey (extractSessionId n env) ppid)
          (pyStrip env.codexNotifyDebugPath ≠ "") fs now replyOut rootOut).exc with
      | none =>
        rw [deliver_api_ok env (sessionKey (extractSessionId n env) ppid) fs now
          replyOut rootOut webhookOut avail notifyOut hcfg.1 hcfg.2 hexc]
      | some e =>
        rw [deliver_api_exc env (sessionKey (extractSessionId n env) ppid) fs now
          replyOut rootOut webhookOut avail notifyOut hcfg.1 hcfg.2 e hexc]
    rw [hsel]
    refine ⟨?_, by simp, by simp, ?_⟩
    · intro t ht
      simp only [backendCalls, hev] at ht
      obtain ⟨ev, hmem, htier⟩ := List.mem_filterMap.mp ht
      rcases sendSlackApi_event_tiers (pyStrip env.slackChannel)
          (sessionKey (extractSessionId n env) ppid)
          (pyStrip env.codexNotifyDebugPath ≠ "") fs now replyOut rootOut ev
          hmem with h | h
      · rw [h] at htier
        cases htier
      · rw [h] at htier
        injection htier with h'
        exact h'.symm
    · intro _ kvs hload
      obtain ⟨x, hx⟩ := sendSlackApi_makes_api_call (pyStrip env.slackChannel)
        (sessionKey (extractSessionId n env) ppid)
        (pyStrip env.codexNotifyDebugPath ≠ "") fs now replyOut rootOut kvs hload
      have : Tier.api ∈ backendCalls (deliver env
          (sessionKey (extractSessionId n env) ppid) fs now replyOut rootOut
          webhookOut avail notifyOut) := by
        simp only [backendCalls, hev]
        exact List.mem_filterMap.mpr ⟨Event.apiCall x, hx, rfl⟩
      exact List.ne_nil_of_mem this
  · by_cases hwh : pyStrip env.slackWebhookUrl ≠ ""
    · have hsel : selectTier (pyStrip env.slackBotToken)
          (pyStrip env.slackChannel) (pyStrip env.slackWebhookUrl) =
          Tier.webhook := by
        simp [selectTier, hcfg, hwh]
      have hev : backendCalls (deliver env
          (sessionKey (extractSessionId n env) ppid) fs now replyOut rootOut
          webhookOut avail notifyOut) = [Tier.webhook] := by
        unfold deliver
        rw [if_neg hcfg, if_pos hwh]
        cases webhookOut <;> simp [backendCalls, dbgEv, tierOf]
      rw [hsel, hev]
      refine ⟨?_, fun _ => rfl, by simp, by simp⟩
      intro t ht
      simpa using ht
    · have hsel : selectTier (pyStrip env.slackBotToken)
          (pyStrip env.slackChannel) (pyStrip env.slackWebhookUrl) =
          Tier.desktop := by
        simp [selectTier, hcfg, hwh]
      rw [hsel]
      cases hav : avail with
      | false =>
        have hev : backendCalls (deliver env
            (sessionKey (extractSessionId n env) ppid) fs now replyOut rootOut
            webhookOut false notifyOut) = [] := by
          unfold deliver
          rw [if_neg hcfg, if_neg hwh]
          simp [backendCalls]
        rw [hev]
        exact ⟨by simp, by simp, fun _ h => absurd h (by simp), by simp⟩
      | true =>
        have hev : backendCalls (deliver env
            (sessionKey (extractSessionId n env) ppid) fs now replyOut rootOut
            webhookOut true notifyOut) = [Tier.desktop] := by
          unfold deliver
          rw [if_neg hcfg, if_neg hwh]
          cases notifyOut <;> simp [backendCalls, dbgEv, tierOf]
        rw [hev]
        refine ⟨?_, by simp, fun _ _ => rfl, by simp⟩
        intro t ht
        simpa using ht

theorem C3_single_backend_strict_precedence_witness :
    (∀ t ∈ backendCalls (mainModel
        (some (.ok (Json.obj [("type", Json.str "agent-turn-complete")])))
        ⟨"tok", "C", "http://wh", "", "", "", ""⟩ 1 FileState.absent 0
        (.ok "1.0") (.ok "2.0") (.ok ()) true (.ok ())),
      t = selectTier (pyStrip "tok") (pyStrip "C") (pyStrip "http://wh")) ∧
    (selectTier (pyStrip "tok") (pyStrip "C") (pyStrip "http://wh") =
        Tier.webhook →
      backendCalls (mainModel
        (some (.ok (Json.obj [("type", Json.str "agent-turn-complete")])))
        ⟨"tok", "C", "http://wh", "", "", "", ""⟩ 1 FileState.absent 0
        (.ok "1.0") (.ok "2.0") (.ok ()) true (.ok ())) = [Tier.webhook]) ∧
    (selectTier (pyStrip "tok") (pyStrip "C") (pyStrip "http://wh") =
        Tier.desktop → true = true →
      backendCalls (mainModel
        (some (.ok (Json.obj [("type", Json.str "agent-turn-complete")])))
        ⟨"tok", "C", "http://wh", "", "", "", ""⟩ 1 FileState.absent 0
        (.ok "1.0") (.ok "2.0") (.ok ()) true (.ok ())) = [Tier.desktop]) ∧
    (selectTier (pyStrip "tok") (pyStrip "C") (pyStrip "http://wh") =
        Tier.api →
      ∀ kvs, loadThreads FileState.absent = Json.obj kvs →
        backendCalls (mainModel
          (some (.ok (Json.obj [("type", Json.str "agent-turn-complete")])))
          ⟨"tok", "C", "http://wh", "", "", "", ""⟩ 1 FileState.absent 0
          (.ok "1.0") (.ok "2.0") (.ok ()) true (.ok ())) ≠ []) :=
  C3_single_backend_strict_precedence
    [("type", Json.str "agent-turn-complete")]
    ⟨"tok", "C", "http://wh", "", "", "", ""⟩ 1 FileState.absent 0
    (.ok "1.0") (.ok "2.0") (.ok ()) true (.ok ()) rfl

end CodexNotify
